import Mathlib

/-
Verification development for the TCR Finance backend (src/main.py).

The file shallowly embeds the pure content of the FastAPI handlers:
  - _safe_get            (Fetcher: one outbound call reduced to a value)
  - ticker               (Aggregator: prices, two gas oracles, status block)
  - get_rates            (rate jitter generator)
  - _simulate_hub_metrics and get_hubs (simulated hub metrics)

Modelling conventions:
  - JSON bodies are an inductive Json type; Python numbers are ℚ (the
    rounding of decimal literals to IEEE doubles is not modelled; no claim
    depends on it).  Python float values that can arise from float(...) are
    PFloat: a finite rational, nan, or a signed infinity.
  - An outbound HTTP call is an HttpOutcome: whether it connected, whether
    it hit the timeout, the status code, and the parsed body (none when the
    body is not valid JSON).  Network nondeterminism is a parameter.
  - Randomness is a parameter: random.random() draws are ℚ inputs, and the
    seeded generator used by the hub simulation is a function from seed to
    a stream of unit draws.
  - Python exception flow that escapes a handler is Except.error; an HTTP
    200 response is Except.ok.
  - Python truthiness of the values involved is the truthy function below.
-/

/- Batteries marks the Rat arithmetic operations irreducible, which blocks
rfl / decide evaluation of the embedded handlers on concrete inputs; the
definitions are sound, so we locally restore their semireducibility. -/
set_option allowUnsafeReducibility true
attribute [local semireducible] Rat.add Rat.mul Rat.inv Rat.div Rat.sub Rat.neg Rat.ofScientific

namespace TCR

/-- JSON values as delivered by response.json(); Python None and JSON null
coincide (dict.get on a missing key also gives None, i.e. Json.null here).
Object keys are assumed distinct, as produced by json parsing. -/
inductive Json where
  | null : Json
  | bool : Bool → Json
  | num : ℚ → Json
  | str : String → Json
  | arr : List Json → Json
  | obj : List (String × Json) → Json

/-- Python float values reachable through float(...): finite, nan, or a
signed infinity. -/
inductive PFloat where
  | fin : ℚ → PFloat
  | nan : PFloat
  | inf : PFloat
  | ninf : PFloat
deriving DecidableEq

/-- Python truthiness of a JSON-decoded value: None, False, 0, empty
string, empty list and empty dict are falsy. -/
def truthy : Json → Bool
  | Json.null => false
  | Json.bool b => b
  | Json.num q => decide (q ≠ 0)
  | Json.str s => !s.data.isEmpty
  | Json.arr xs => !xs.isEmpty
  | Json.obj fs => !fs.isEmpty

/-- Whether a JSON value is null (Python None). -/
def Json.isNull : Json → Bool
  | Json.null => true
  | _ => false

/-- Value of a digit string, most significant first. -/
def natVal (cs : List Char) : ℕ :=
  cs.foldl (fun acc c => 10 * acc + (c.toNat - 48)) 0

/-- Ten to a natural power, as an exact rational. -/
def pow10 : ℕ → ℚ
  | 0 => 1
  | n + 1 => 10 * pow10 n

/-- Split a character list at its first dot: the part before it and the
part after it (the whole list and an empty tail when there is no dot). -/
def breakDot : List Char → List Char × List Char
  | [] => ([], [])
  | c :: cs =>
    if c = '.' then ([], cs)
    else
      let r := breakDot cs
      (c :: r.1, r.2)

/-- Unsigned decimal accepted by Python float(): digits with an optional
dot, at least one digit overall ("5", "5.", ".5", "5.41").  A second dot
lands in the fractional part and fails the digit check.  Exponent
notation, underscores and surrounding whitespace, which Python also
accepts, are not modelled; no claim depends on them. -/
def parseUnsignedFloat (cs : List Char) : Option ℚ :=
  let p := breakDot cs
  if 0 < p.1.length + p.2.length ∧ p.1.all Char.isDigit ∧ p.2.all Char.isDigit then
    some ((natVal p.1 : ℚ) + (natVal p.2 : ℚ) / pow10 p.2.length)
  else none

/-- String accepted by Python float(): optional sign, then a decimal
number, or the special spellings nan / inf / infinity (case-insensitive). -/
def parsePyFloat (s : String) : Option PFloat :=
  let sgn : Bool × List Char :=
    match s.data with
    | '-' :: rest => (true, rest)
    | '+' :: rest => (false, rest)
    | _ => (false, s.data)
  let low := sgn.2.map Char.toLower
  if low = ['n', 'a', 'n'] then some PFloat.nan
  else if low = ['i', 'n', 'f'] ∨ low = ['i', 'n', 'f', 'i', 'n', 'i', 't', 'y'] then
    some (if sgn.1 then PFloat.ninf else PFloat.inf)
  else
    match parseUnsignedFloat sgn.2 with
    | some q => some (PFloat.fin (if sgn.1 then -q else q))
    | none => none

/-- Python float(x) on a JSON-decoded value: numbers and booleans convert,
strings are parsed, everything else (None, lists, dicts) raises, which we
model as none. -/
def pyFloat : Json → Option PFloat
  | Json.num q => some (PFloat.fin q)
  | Json.bool b => some (PFloat.fin (if b then 1 else 0))
  | Json.str s => parsePyFloat s
  | _ => none

/-- dict.get k on an association list with distinct keys; a missing key
gives None (Json.null). -/
def alistGet (fields : List (String × Json)) (k : String) : Json :=
  match fields with
  | [] => Json.null
  | (k2, v) :: rest => if k2 = k then v else alistGet rest k

/-- Python "a or b" on JSON-decoded values: a when a is truthy, else b. -/
def orJson (a b : Json) : Json :=
  if truthy a then a else b

/-- Outcome of one outbound requests.get call: connection success, timeout,
HTTP status, and the parsed body (none when the body is not valid JSON). -/
structure HttpOutcome where
  connected : Bool
  timedOut : Bool
  status : ℕ
  body : Option Json

/-- The call failed in one of the ways _safe_get absorbs: connection error,
timeout, raise_for_status on a status ≥ 400, or a body that is not JSON. -/
def fetch_failed (o : HttpOutcome) : Prop :=
  o.connected = false ∨ o.timedOut = true ∨ 400 ≤ o.status ∨ o.body.isNone = true

/-- The call fully succeeded: connected within the timeout, status < 400,
and the body parsed as JSON. -/
def fetch_ok (o : HttpOutcome) : Prop :=
  o.connected = true ∧ o.timedOut = false ∧ o.status < 400 ∧ o.body.isSome = true

instance (o : HttpOutcome) : Decidable (fetch_failed o) := by
  unfold fetch_failed; infer_instance

instance (o : HttpOutcome) : Decidable (fetch_ok o) := by
  unfold fetch_ok; infer_instance

/-- Default timeout of _safe_get, in seconds. -/
def SAFE_GET_DEFAULT_TIMEOUT : ℚ := 4.0

/-- _safe_get(url): requests.get with a timeout, raise_for_status, then
r.json(); every exception is caught and becomes the empty dict.  The url
does not influence the modelled result beyond the outcome o of the call. -/
def safe_get (url : String) (o : HttpOutcome) : Json :=
  if o.connected = true ∧ o.timedOut = false ∧ o.status < 400 then
    match o.body with
    | some j => j
    | none => Json.obj []
  else Json.obj []

/-- Binance price endpoint for one symbol (f-string in the source). -/
def URL_PRICE (sym : String) : String :=
  "https://api.binance.com/api/v3/ticker/price?symbol=" ++ sym

/-- Etherchain gas oracle endpoint. -/
def URL_ETH_GAS : String := "https://www.etherchain.org/api/gasPriceOracle"

/-- Polygon gas station endpoint. -/
def URL_POLY_GAS : String := "https://gasstation-mainnet.matic.network/v2"

/-- Price extraction in ticker, lines 86-89 of main.py:
float(data.get("price")) if data.get("price") else None, with the whole
expression inside try/except that yields None.  A non-dict data makes
.get raise AttributeError, which the try absorbs. -/
def extract_price (data : Json) : Option PFloat :=
  match data with
  | Json.obj fields =>
    let p := alistGet fields "price"
    if truthy p then pyFloat p else none
  | _ => none

/-- ETH gas extraction in ticker, lines 93-104 of main.py: guarded by
Python truthiness of the fetched data; the or-chain standard / safeLow /
currentBaseFee; float conversion inside try/except None.  A truthy
non-dict body makes .get raise AttributeError outside any try, which
escapes the handler (Except.error). -/
def extract_eth_gwei (data : Json) : Except Unit (Option PFloat) :=
  if truthy data then
    match data with
    | Json.obj fields =>
      let v := orJson (alistGet fields "standard")
        (orJson (alistGet fields "safeLow") (alistGet fields "currentBaseFee"))
      Except.ok (if v.isNull then none else pyFloat v)
    | _ => Except.error ()
  else Except.ok none

/-- Polygon gas extraction in ticker, lines 107-116 of main.py:
std = data.get("standard") or then maxFee / maxPriorityFee inside std,
float conversion inside try/except None.  A truthy non-dict body, or a
truthy non-dict standard member, raises outside any try. -/
def extract_polygon_gwei (data : Json) : Except Unit (Option PFloat) :=
  if truthy data then
    match data with
    | Json.obj fields =>
      match orJson (alistGet fields "standard") (Json.obj []) with
      | Json.obj sf =>
        let v := orJson (alistGet sf "maxFee") (alistGet sf "maxPriorityFee")
        Except.ok (if v.isNull then none else pyFloat v)
      | _ => Except.error ()
    | _ => Except.error ()
  else Except.ok none

/-- Python int() on a rational: truncation toward zero. -/
def truncQ (q : ℚ) : ℤ :=
  if 0 ≤ q then Int.floor q else Int.ceil q

/-- The JSON body assembled by the ticker handler (result dict, lines
118-133 of main.py).  The five price and gas leaves are each a Python
float or None. -/
structure TickerResult where
  timestamp : String
  prices_USDTBRL : Option PFloat
  prices_BTCBRL : Option PFloat
  prices_ETHBRL : Option PFloat
  gas_ETH_gwei : Option PFloat
  gas_Polygon_gwei : Option PFloat
  status_desk : String
  status_latency_ms : ℤ
deriving DecidableEq

/-- The ticker handler: three price fetches through the price extraction,
the two gas oracles through their extractions, desk always Online, and
latency_ms = 100 + int(random.random() * 80) with the unit draw u.
Except.ok is an HTTP 200 response; Except.error is an exception escaping
the handler (HTTP 500).  In the source the price loop runs first and can
never raise, so writing the pure price extractions inside the final record
is semantically identical. -/
def ticker (now : String) (rU rB rE rG rP : HttpOutcome) (u : ℚ) :
    Except Unit TickerResult :=
  match extract_eth_gwei (safe_get URL_ETH_GAS rG) with
  | Except.error e => Except.error e
  | Except.ok ethGwei =>
    match extract_polygon_gwei (safe_get URL_POLY_GAS rP) with
    | Except.error e => Except.error e
    | Except.ok polyGwei =>
      Except.ok
        { timestamp := now
          prices_USDTBRL := extract_price (safe_get (URL_PRICE "USDTBRL") rU)
          prices_BTCBRL := extract_price (safe_get (URL_PRICE "BTCBRL") rB)
          prices_ETHBRL := extract_price (safe_get (URL_PRICE "ETHBRL") rE)
          gas_ETH_gwei := ethGwei
          gas_Polygon_gwei := polyGwei
          status_desk := "Online"
          status_latency_ms := 100 + truncQ (u * 80) }

/-- The five external sources of the ticker. -/
inductive Src where
  | usdt | btc | ethp | ethGas | polyGas
deriving DecidableEq

/-- The ticker with its sources indexed by Src. -/
def tickerI (now : String) (inp : Src → HttpOutcome) (u : ℚ) :
    Except Unit TickerResult :=
  ticker now (inp Src.usdt) (inp Src.btc) (inp Src.ethp) (inp Src.ethGas)
    (inp Src.polyGas) u

/-- The response field derived from each source. -/
def TickerResult.srcField (r : TickerResult) : Src → Option PFloat
  | Src.usdt => r.prices_USDTBRL
  | Src.btc => r.prices_BTCBRL
  | Src.ethp => r.prices_ETHBRL
  | Src.ethGas => r.gas_ETH_gwei
  | Src.polyGas => r.gas_Polygon_gwei

/-- HTTP 200 (true) versus an unhandled exception (false). -/
def httpOk (e : Except Unit TickerResult) : Bool :=
  match e with
  | Except.ok _ => true
  | Except.error _ => false

/-- A body that the gas-oracle-A section of ticker handles without
raising: falsy, or a JSON object. -/
def gasA_shape (j : Json) : Bool :=
  !truthy j ||
    (match j with
     | Json.obj _ => true
     | _ => false)

/-- A body that the gas-oracle-B section of ticker handles without
raising: falsy, or a JSON object whose standard member is falsy or
itself an object. -/
def gasB_shape (j : Json) : Bool :=
  !truthy j ||
    (match j with
     | Json.obj fields =>
       (match orJson (alistGet fields "standard") (Json.obj []) with
        | Json.obj _ => true
        | _ => false)
     | _ => false)

/-- A connection error: the request never reached the server. -/
def connFail : HttpOutcome :=
  { connected := false, timedOut := false, status := 0, body := none }

/-- A successful 200 response whose body parsed as j. -/
def ok200 (j : Json) : HttpOutcome :=
  { connected := true, timedOut := false, status := 200, body := some j }

/-- The price adapter rule as stated by the amended claim: when the payload
is a mapping whose price field is truthy, the float cast of that field;
null when the field is missing or falsy, the payload is not a mapping, or
the cast fails (pyFloat of a non-convertible value is none). -/
def price_rule (data : Json) : Option PFloat :=
  match data with
  | Json.obj fields =>
    if truthy (alistGet fields "price") then pyFloat (alistGet fields "price")
    else none
  | _ => none

/-- The gas-oracle-A rule as stated by the amended claim, on a mapping
payload: the first truthy field among standard, safeLow, currentBaseFee
wins; when none is truthy the raw value of currentBaseFee is taken; the
chosen value is cast to float, null when it is absent or the cast fails. -/
def gasA_rule (fields : List (String × Json)) : Option PFloat :=
  let chosen :=
    if truthy (alistGet fields "standard") then alistGet fields "standard"
    else if truthy (alistGet fields "safeLow") then alistGet fields "safeLow"
    else alistGet fields "currentBaseFee"
  pyFloat chosen

/-- The gas-oracle-A result as stated by the amended claim: a falsy payload
yields null, a mapping payload follows gasA_rule; truthy non-mapping
payloads raise instead and never produce a 200 response. -/
def gasA_result (data : Json) : Option PFloat :=
  match data with
  | Json.obj fields => if fields.isEmpty then none else gasA_rule fields
  | _ => none

/-- The gas-oracle-B inner rule as stated by the amended claim, on the
nested standard mapping: the first truthy field among maxFee and
maxPriorityFee wins; when neither is truthy the raw value of
maxPriorityFee is taken; cast to float, null on absence or cast failure. -/
def gasB_rule (sf : List (String × Json)) : Option PFloat :=
  let chosen :=
    if truthy (alistGet sf "maxFee") then alistGet sf "maxFee"
    else alistGet sf "maxPriorityFee"
  pyFloat chosen

/-- The gas-oracle-B result as stated by the amended claim: a falsy payload
yields null; a mapping payload reads the object under standard (a falsy or
missing standard counts as empty) and applies gasB_rule; truthy non-object
shapes raise instead and never produce a 200 response. -/
def gasB_result (data : Json) : Option PFloat :=
  match data with
  | Json.obj fields =>
    if fields.isEmpty then none
    else
      match orJson (alistGet fields "standard") (Json.obj []) with
      | Json.obj sf => gasB_rule sf
      | _ => none
  | _ => none

/-- Python round(x, 2) on a nonnegative amount: rounding to two decimal
places (modelled half-up on exact rationals; the banker-rounding of exact
ties on binary floats is immaterial to every claim, which only uses sign
and determinism of the result). -/
def round2 (q : ℚ) : ℚ :=
  (Int.floor (q * 100 + 1 / 2) : ℚ) / 100

/-- Static hub identity, entries of _DEFAULT_HUBS. -/
structure Hub where
  id : String
  name : String
  country : String
  pairs : List String
deriving DecidableEq

/-- _DEFAULT_HUBS, lines 141-147 of main.py. -/
def DEFAULT_HUBS : List Hub :=
  [ { id := "saopaulo", name := "São Paulo", country := "Brasil", pairs := ["USDT ⇄ BRL"] },
    { id := "newyork", name := "New York", country := "EUA", pairs := ["USDT ⇄ USD"] },
    { id := "lisbon", name := "Lisboa", country := "Portugal", pairs := ["USDT ⇄ EUR"] },
    { id := "dubai", name := "Dubai", country := "EAU", pairs := ["USDT ⇄ AED"] },
    { id := "singapore", name := "Singapura", country := "Singapura", pairs := ["USDT ⇄ SGD"] } ]

/-- One simulated metric record. -/
structure HubMetric where
  volume24h : ℚ
  latencyMs : ℤ
  status : String
deriving DecidableEq

/-- The maintenance status string emitted by _simulate_hub_metrics. -/
def STATUS_MAINT : String := "Manutenção"

/-- Body of the loop of _simulate_hub_metrics for hub index i with short
base volume b (the literals 18_5, 12_9, 6_3, 9_8, 7_4), consuming the unit
draws u (3i), u (3i+1), u (3i+2) in the order random.uniform(0.9, 1.1),
random.random() for latency, random.random() for status:
  base_vol = b * 1_000_00
  jitter = 0.9 + (1.1 - 0.9) * draw
  latency = 80 + i * 20 + int(draw * 40)
  volume24h = round(base_vol * jitter * 100, 2)
  status = Online if draw > 0.05 else Manutenção. -/
def hubMetricAt (u : ℕ → ℚ) (i : ℕ) (b : ℕ) : HubMetric :=
  let base_vol : ℚ := (b : ℚ) * 100000
  let jitter : ℚ := 0.9 + (1.1 - 0.9) * u (3 * i)
  let latency : ℤ := 80 + (i : ℤ) * 20 + truncQ (u (3 * i + 1) * 40)
  { volume24h := round2 (base_vol * jitter * 100)
    latencyMs := latency
    status := if u (3 * i + 2) > 0.05 then "Online" else STATUS_MAINT }

/-- _simulate_hub_metrics: random.seed(datetime.now().minute + seed), then
one metric record per default hub, keyed by hub id, in declaration order
(the loop over the fixed 5-entry list is unrolled).  G maps a seed to the
stream of unit draws the seeded generator produces. -/
def simulate_hub_metrics (G : ℕ → ℕ → ℚ) (minute_now : ℕ) (seed : ℕ) :
    List (String × HubMetric) :=
  let u := G (minute_now + seed)
  [ ("saopaulo", hubMetricAt u 0 185),
    ("newyork", hubMetricAt u 1 129),
    ("lisbon", hubMetricAt u 2 63),
    ("dubai", hubMetricAt u 3 98),
    ("singapore", hubMetricAt u 4 74) ]

/-- metrics.get(id, ...) on the simulated metrics list. -/
def metricsGet (xs : List (String × HubMetric)) (k : String) : Option HubMetric :=
  match xs with
  | [] => none
  | (k2, v) :: rest => if k2 = k then some v else metricsGet rest k

/-- One entry of the hubs response: hub identity plus metric fields. -/
structure HubItem where
  id : String
  name : String
  country : String
  pairs : List String
  volume24h : ℚ
  latencyMs : ℤ
  status : String
deriving DecidableEq

/-- The get_hubs handler, lines 165-183 of main.py: simulate metrics with
the default seed 1, then join each default hub with its metric snapshot,
with the per-field defaults 0 / 120 / Online when the id is absent. -/
def get_hubs (G : ℕ → ℕ → ℚ) (minute_now : ℕ) : List HubItem :=
  let metrics := simulate_hub_metrics G minute_now 1
  DEFAULT_HUBS.map (fun h =>
    match metricsGet metrics h.id with
    | some m =>
      { id := h.id, name := h.name, country := h.country, pairs := h.pairs,
        volume24h := m.volume24h, latencyMs := m.latencyMs, status := m.status }
    | none =>
      { id := h.id, name := h.name, country := h.country, pairs := h.pairs,
        volume24h := 0, latencyMs := 120, status := "Online" })

/-- A wall-clock instant as datetime.now() exposes it; only the minute
component reaches the hub simulation. -/
structure PyDateTime where
  year : ℕ
  month : ℕ
  day : ℕ
  hour : ℕ
  minute : ℕ
  second : ℕ
deriving DecidableEq

/-- get_hubs invoked at a wall-clock instant: the code seeds from
datetime.now().minute, the minute-of-hour. -/
def get_hubs_at (G : ℕ → ℕ → ℚ) (t : PyDateTime) : List HubItem :=
  get_hubs G t.minute

/-- The rates response body. -/
structure RatesResult where
  usdt_to_brl : ℚ
  brl_to_usdt : ℚ
  spread_bps : ℤ
  timestamp : String
deriving DecidableEq

/-- The get_rates handler, lines 31-55 of main.py, with the two
random.uniform unit draws u1, u2 (uniform(a, b) = a + (b - a) * draw) and
the random.randint(-5, 5) draw n taken as parameters (n is quantified over
all of ℤ, a superset of the drawn range; the floor property is claimed for
every draw). -/
def get_rates (now : String) (u1 u2 : ℚ) (n : ℤ) : RatesResult :=
  let base_usdt_to_brl : ℚ := 5.40
  let base_brl_to_usdt : ℚ := 1 / 5.48
  let base_spread_bps : ℤ := 45
  let jitter_brl : ℚ := -0.03 + (0.03 - -0.03) * u1
  let jitter_usdt : ℚ := -0.0002 + (0.0002 - -0.0002) * u2
  let jitter_bps : ℤ := n
  { usdt_to_brl := max 0.0 (base_usdt_to_brl + jitter_brl)
    brl_to_usdt := max 0.0 (base_brl_to_usdt + jitter_usdt)
    spread_bps := max 0 (base_spread_bps + jitter_bps)
    timestamp := now }

/-- Projection of a ticker response onto the field of one source,
propagating an unhandled exception. -/
def tickerField (e : Except Unit TickerResult) (s : Src) :
    Except Unit (Option PFloat) :=
  Except.map (fun r => TickerResult.srcField r s) e

/-- Projection of a ticker response onto status.desk. -/
def tickerDesk (e : Except Unit TickerResult) : Except Unit String :=
  Except.map (fun r => r.status_desk) e

/-- Projection of a ticker response onto status.latency_ms. -/
def tickerLatency (e : Except Unit TickerResult) : Except Unit ℤ :=
  Except.map (fun r => r.status_latency_ms) e

/-- Demo sources: USDTBRL answers with a price, everything else is a
connection error. -/
def inpDemoA : Src → HttpOutcome
  | Src.usdt => ok200 (Json.obj [("price", Json.num 5)])
  | _ => connFail

/-- Demo sources: every call is a connection error. -/
def inpDemoB : Src → HttpOutcome
  | _ => connFail

/-- A degenerate seeded generator whose every draw is 0. -/
def G0 : ℕ → ℕ → ℚ := fun _ _ => 0

/- ------------------------------------------------------------------ -/
/- Helper lemmas shared by the claim theorems.                         -/
/- ------------------------------------------------------------------ -/

theorem safe_get_of_failed (url : String) (o : HttpOutcome) (h : fetch_failed o) :
    safe_get url o = Json.obj [] := by
  unfold safe_get
  rcases h with h | h | h | h
  · rw [if_neg]
    intro hc
    rw [h] at hc
    exact Bool.noConfusion hc.1
  · rw [if_neg]
    intro hc
    rw [h] at hc
    exact Bool.noConfusion hc.2.1
  · rw [if_neg]
    intro hc
    omega
  · rw [Option.isNone_iff_eq_none] at h
    rw [h]
    split <;> rfl

theorem safe_get_of_ok (url : String) (o : HttpOutcome) (j : Json)
    (hok : fetch_ok o) (hb : o.body = some j) : safe_get url o = j := by
  unfold safe_get
  rw [if_pos ⟨hok.1, hok.2.1, hok.2.2.1⟩, hb]

theorem ifNull_pyFloat (v : Json) :
    (if v.isNull then none else pyFloat v) = pyFloat v := by
  cases v <;> rfl

theorem extract_eth_of_shape (j : Json) (h : gasA_shape j = true) :
    extract_eth_gwei j = Except.ok (gasA_result j) := by
  cases j with
  | obj fields =>
    cases fields with
    | nil => rfl
    | cons f rest =>
      unfold extract_eth_gwei gasA_result gasA_rule
      rw [if_pos (by simp [truthy])]
      simp only [List.isEmpty_cons, if_neg]
      rw [ifNull_pyFloat]
      simp [orJson]
  | null => rfl
  | bool b =>
    cases b with
    | false => rfl
    | true => simp [gasA_shape, truthy] at h
  | num q =>
    unfold extract_eth_gwei gasA_result
    simp only [gasA_shape, truthy, Bool.or_eq_true, Bool.not_eq_true] at h
    rcases h with h | h
    · rw [if_neg (by simp [truthy, decide_eq_true_eq] at h ⊢; exact h)]
    · exact Bool.noConfusion h
  | str s =>
    unfold extract_eth_gwei gasA_result
    simp only [gasA_shape, truthy, Bool.or_eq_true, Bool.not_eq_true] at h
    rcases h with h | h
    · rw [if_neg (by simp [truthy]; simp at h; exact h)]
    · exact Bool.noConfusion h
  | arr xs =>
    unfold extract_eth_gwei gasA_result
    simp only [gasA_shape, truthy, Bool.or_eq_true, Bool.not_eq_true] at h
    rcases h with h | h
    · rw [if_neg (by simp [truthy]; simp at h; exact h)]
    · exact Bool.noConfusion h

theorem extract_poly_of_shape (j : Json) (h : gasB_shape j = true) :
    extract_polygon_gwei j = Except.ok (gasB_result j) := by
  cases j with
  | obj fields =>
    cases fields with
    | nil => rfl
    | cons f rest =>
      unfold extract_polygon_gwei gasB_result gasB_rule
      rw [if_pos (by simp [truthy])]
      simp only [List.isEmpty_cons, if_neg]
      simp only [gasB_shape, truthy, Bool.or_eq_true, Bool.not_eq_true] at h
      rcases h with h | h
      · simp at h
      · cases hstd : orJson (alistGet (f :: rest) "standard") (Json.obj []) with
        | obj sf => simp [orJson, ifNull_pyFloat]
        | null => rw [hstd] at h; exact Bool.noConfusion h
        | bool b => rw [hstd] at h; exact Bool.noConfusion h
        | num q => rw [hstd] at h; exact Bool.noConfusion h
        | str s => rw [hstd] at h; exact Bool.noConfusion h
        | arr xs => rw [hstd] at h; exact Bool.noConfusion h
  | null => rfl
  | bool b =>
    cases b with
    | false => rfl
    | true => simp [gasB_shape, truthy] at h
  | num q =>
    unfold extract_polygon_gwei gasB_result
    simp only [gasB_shape, truthy, Bool.or_eq_true, Bool.not_eq_true] at h
    rcases h with h | h
    · rw [if_neg (by simp [truthy, decide_eq_true_eq] at h ⊢; exact h)]
    · exact Bool.noConfusion h
  | str s =>
    unfold extract_polygon_gwei gasB_result
    simp only [gasB_shape, truthy, Bool.or_eq_true, Bool.not_eq_true] at h
    rcases h with h | h
    · rw [if_neg (by simp [truthy]; simp at h; exact h)]
    · exact Bool.noConfusion h
  | arr xs =>
    unfold extract_polygon_gwei gasB_result
    simp only [gasB_shape, truthy, Bool.or_eq_true, Bool.not_eq_true] at h
    rcases h with h | h
    · rw [if_neg (by simp [truthy]; simp at h; exact h)]
    · exact Bool.noConfusion h

theorem extract_price_eq_rule (j : Json) : extract_price j = price_rule j := by
  cases j <;> rfl

theorem ticker_ok_of (now : String) (rU rB rE rG rP : HttpOutcome) (u : ℚ)
    (eth poly : Option PFloat)
    (hG : extract_eth_gwei (safe_get URL_ETH_GAS rG) = Except.ok eth)
    (hP : extract_polygon_gwei (safe_get URL_POLY_GAS rP) = Except.ok poly) :
    ticker now rU rB rE rG rP u = Except.ok
      { timestamp := now
        prices_USDTBRL := extract_price (safe_get (URL_PRICE "USDTBRL") rU)
        prices_BTCBRL := extract_price (safe_get (URL_PRICE "BTCBRL") rB)
        prices_ETHBRL := extract_price (safe_get (URL_PRICE "ETHBRL") rE)
        gas_ETH_gwei := eth
        gas_Polygon_gwei := poly
        status_desk := "Online"
        status_latency_ms := 100 + truncQ (u * 80) } := by
  unfold ticker
  rw [hG, hP]

theorem ticker_ok_elim (now : String) (rU rB rE rG rP : HttpOutcome) (u : ℚ)
    (r : TickerResult) (h : ticker now rU rB rE rG rP u = Except.ok r) :
    r.prices_USDTBRL = extract_price (safe_get (URL_PRICE "USDTBRL") rU) ∧
    r.prices_BTCBRL = extract_price (safe_get (URL_PRICE "BTCBRL") rB) ∧
    r.prices_ETHBRL = extract_price (safe_get (URL_PRICE "ETHBRL") rE) ∧
    extract_eth_gwei (safe_get URL_ETH_GAS rG) = Except.ok r.gas_ETH_gwei ∧
    extract_polygon_gwei (safe_get URL_POLY_GAS rP) = Except.ok r.gas_Polygon_gwei ∧
    r.status_desk = "Online" ∧
    r.status_latency_ms = 100 + truncQ (u * 80) ∧
    r.timestamp = now := by
  unfold ticker at h
  cases hG : extract_eth_gwei (safe_get URL_ETH_GAS rG) with
  | error e => rw [hG] at h; exact Except.noConfusion h
  | ok eth =>
    rw [hG] at h
    cases hP : extract_polygon_gwei (safe_get URL_POLY_GAS rP) with
    | error e => rw [hP] at h; exact Except.noConfusion h
    | ok poly =>
      rw [hP] at h
      injection h with h2
      subst h2
      exact ⟨rfl, rfl, rfl, rfl, rfl, rfl, rfl, rfl⟩

theorem extract_eth_error_of_shape (j : Json) (h : gasA_shape j = false) :
    extract_eth_gwei j = Except.error () := by
  unfold gasA_shape at h
  unfold extract_eth_gwei
  cases j with
  | obj fields => simp at h
  | null => simp [truthy] at h
  | bool b =>
    cases b with
    | true => rfl
    | false => simp [truthy] at h
  | num q =>
    cases ht : truthy (Json.num q) with
    | false => rw [ht] at h; simp at h
    | true => rfl
  | str s =>
    cases ht : truthy (Json.str s) with
    | false => rw [ht] at h; simp at h
    | true => rfl
  | arr xs =>
    cases ht : truthy (Json.arr xs) with
    | false => rw [ht] at h; simp at h
    | true => rfl

theorem extract_polygon_gwei_obj (fields : List (String × Json))
    (ht : truthy (Json.obj fields) = true) :
    extract_polygon_gwei (Json.obj fields) =
      (match orJson (alistGet fields "standard") (Json.obj []) with
       | Json.obj sf =>
         Except.ok
           (if (orJson (alistGet sf "maxFee") (alistGet sf "maxPriorityFee")).isNull then none
            else pyFloat (orJson (alistGet sf "maxFee") (alistGet sf "maxPriorityFee")))
       | _ => Except.error ()) := by
  unfold extract_polygon_gwei
  rw [ht]
  rfl

theorem extract_poly_error_of_shape (j : Json) (h : gasB_shape j = false) :
    extract_polygon_gwei j = Except.error () := by
  unfold gasB_shape at h
  cases j with
  | obj fields =>
    cases ht : truthy (Json.obj fields) with
    | false => rw [ht] at h; simp at h
    | true =>
      simp only [ht, Bool.not_true, Bool.false_or] at h
      rw [extract_polygon_gwei_obj fields ht]
      cases hstd : orJson (alistGet fields "standard") (Json.obj []) with
      | obj sf => simp_all
      | null => rfl
      | bool b => rfl
      | num q => rfl
      | str s => rfl
      | arr xs => rfl
  | null => simp [truthy] at h
  | bool b =>
    cases b with
    | true => rfl
    | false => simp [truthy] at h
  | num q =>
    cases ht : truthy (Json.num q) with
    | false => rw [ht] at h; simp at h
    | true => unfold extract_polygon_gwei; rw [ht]; rfl
  | str s =>
    cases ht : truthy (Json.str s) with
    | false => rw [ht] at h; simp at h
    | true => unfold extract_polygon_gwei; rw [ht]; rfl
  | arr xs =>
    cases ht : truthy (Json.arr xs) with
    | false => rw [ht] at h; simp at h
    | true => unfold extract_polygon_gwei; rw [ht]; rfl

theorem extract_eth_ok_val (j : Json) (v : Option PFloat)
    (h : extract_eth_gwei j = Except.ok v) : v = gasA_result j := by
  cases hs : gasA_shape j with
  | true =>
    rw [extract_eth_of_shape j hs] at h
    injection h with h2
    exact h2.symm
  | false =>
    rw [extract_eth_error_of_shape j hs] at h
    exact Except.noConfusion h

theorem extract_poly_ok_val (j : Json) (v : Option PFloat)
    (h : extract_polygon_gwei j = Except.ok v) : v = gasB_result j := by
  cases hs : gasB_shape j with
  | true =>
    rw [extract_poly_of_shape j hs] at h
    injection h with h2
    exact h2.symm
  | false =>
    rw [extract_poly_error_of_shape j hs] at h
    exact Except.noConfusion h

theorem truncQ_nonneg (q : ℚ) (h : 0 ≤ q) : 0 ≤ truncQ q := by
  unfold truncQ
  rw [if_pos h]
  exact Int.floor_nonneg.mpr h

theorem round2_nonneg (q : ℚ) (h : 0 ≤ q) : 0 ≤ round2 q := by
  unfold round2
  apply div_nonneg _ (by norm_num)
  have : (0 : ℤ) ≤ Int.floor (q * 100 + 1 / 2) := by
    apply Int.floor_nonneg.mpr
    nlinarith
  exact_mod_cast this

/- ------------------------------------------------------------------ -/
/- Claim theorems.                                                     -/
/- ------------------------------------------------------------------ -/

/-- C3: fetcher totality: for every URL and every failing outbound call
(connection error, timeout exceeded, HTTP status ≥ 400, or a body not
parseable as JSON) _safe_get returns the empty mapping — it is a total
function into Json and so never raises to its caller — and its default
timeout is 4 seconds. -/
theorem safe_get_total (url : String) (o : HttpOutcome) (h : fetch_failed o) :
    safe_get url o = Json.obj [] ∧ SAFE_GET_DEFAULT_TIMEOUT = 4 :=
  ⟨safe_get_of_failed url o h, by norm_num [SAFE_GET_DEFAULT_TIMEOUT]⟩

/-- Witness for C3 at a concrete connection failure. -/
theorem safe_get_total_witness :
    safe_get URL_ETH_GAS connFail = Json.obj [] ∧ SAFE_GET_DEFAULT_TIMEOUT = 4 :=
  safe_get_total URL_ETH_GAS connFail (Or.inl rfl)

/-- C8: rates floor: for every invocation of the rates operation and every
possible jitter draw (the two uniform draws and the randint draw are fully
unconstrained), the returned usdt_to_brl, brl_to_usdt and spread_bps are
all nonnegative. -/
theorem get_rates_floor (now : String) (u1 u2 : ℚ) (n : ℤ) :
    0 ≤ (get_rates now u1 u2 n).usdt_to_brl ∧
    0 ≤ (get_rates now u1 u2 n).brl_to_usdt ∧
    0 ≤ (get_rates now u1 u2 n).spread_bps := by
  refine ⟨?_, ?_, ?_⟩ <;>
    (simp only [get_rates]; exact le_max_of_le_left (by norm_num))

/-- C4 (amended): whenever a ticker invocation returns HTTP 200, the
gas.ETH_gwei field equals the amended gas-oracle-A rule applied to the
fetched body: a falsy payload yields null; on a mapping payload the first
truthy field among standard, safeLow, currentBaseFee wins, with the raw
value of currentBaseFee taken when none is truthy, cast to float and null
on a failed cast (a truthy non-mapping payload raises instead and never
reaches a 200 response); the concrete scenarios standard 30 giving 30.0
and currentBaseFee 18 alone giving 18.0 both hold. -/
theorem ticker_gasA_fallback (now : String) (rU rB rE rG rP : HttpOutcome)
    (u : ℚ) (r : TickerResult)
    (h : ticker now rU rB rE rG rP u = Except.ok r) :
    r.gas_ETH_gwei = gasA_result (safe_get URL_ETH_GAS rG) ∧
    gasA_result (Json.obj [("standard", Json.num 30)]) = some (PFloat.fin 30) ∧
    gasA_result (Json.obj [("currentBaseFee", Json.num 18)]) = some (PFloat.fin 18) := by
  obtain ⟨-, -, -, hG, -, -, -, -⟩ := ticker_ok_elim now rU rB rE rG rP u r h
  exact ⟨extract_eth_ok_val _ _ hG, by decide, by decide⟩

/-- Witness for C4: the amended rule instantiated on a run whose
gas-oracle-A body is the mapping with standard 30, every other source a
connection error, yielding gas.ETH_gwei 30.0. -/
theorem ticker_gasA_fallback_witness :
    (⟨"t", none, none, none, some (PFloat.fin 30), none, "Online", 100⟩ :
        TickerResult).gas_ETH_gwei
      = gasA_result (safe_get URL_ETH_GAS (ok200 (Json.obj [("standard", Json.num 30)]))) ∧
    gasA_result (Json.obj [("standard", Json.num 30)]) = some (PFloat.fin 30) ∧
    gasA_result (Json.obj [("currentBaseFee", Json.num 18)]) = some (PFloat.fin 18) :=
  ticker_gasA_fallback "t" connFail connFail connFail
    (ok200 (Json.obj [("standard", Json.num 30)])) connFail 0
    ⟨"t", none, none, none, some (PFloat.fin 30), none, "Online", 100⟩ rfl

/-- Counterexample to C4 as stated: with gas-oracle-A body containing
standard 0 and safeLow 22, the field standard is present, yet the code
returns 22.0 (Python or skips falsy values), not 0.0 as the
first-present-wins rule would require. -/
theorem ticker_gasA_counterexample :
    tickerField
      (ticker "t" connFail connFail connFail
        (ok200 (Json.obj [("standard", Json.num 0), ("safeLow", Json.num 22)]))
        connFail 0) Src.ethGas
      = Except.ok (some (PFloat.fin 22)) ∧
    some (PFloat.fin 22) ≠ some (PFloat.fin 0) :=
  ⟨rfl, by decide⟩

/-- C9 (amended): whenever a ticker invocation returns HTTP 200, the
gas.Polygon_gwei field equals the amended gas-oracle-B rule applied to the
fetched body: a falsy payload yields null; on a mapping payload the object
under standard is read (a falsy or missing standard counting as empty) and
within it the first truthy field among maxFee, maxPriorityFee wins, with
the raw value of maxPriorityFee taken when neither is truthy, cast to
float and null on a failed cast or a null value (a truthy non-mapping
payload, or a truthy non-mapping standard member, raises instead and never
reaches a 200 response). -/
theorem ticker_gasB_nested (now : String) (rU rB rE rG rP : HttpOutcome)
    (u : ℚ) (r : TickerResult)
    (h : ticker now rU rB rE rG rP u = Except.ok r) :
    r.gas_Polygon_gwei = gasB_result (safe_get URL_POLY_GAS rP) := by
  obtain ⟨-, -, -, -, hP, -, -, -⟩ := ticker_ok_elim now rU rB rE rG rP u r h
  exact extract_poly_ok_val _ _ hP

/-- Witness for C9: the amended rule instantiated on a run whose
gas-oracle-B body is the documented example standard.maxFee 55,
standard.maxPriorityFee 35, yielding gas.Polygon_gwei 55.0. -/
theorem ticker_gasB_nested_witness :
    (⟨"t", none, none, none, none, some (PFloat.fin 55), "Online", 100⟩ :
        TickerResult).gas_Polygon_gwei
      = gasB_result (safe_get URL_POLY_GAS (ok200 (Json.obj
          [("standard", Json.obj
            [("maxFee", Json.num 55), ("maxPriorityFee", Json.num 35)])]))) :=
  ticker_gasB_nested "t" connFail connFail connFail connFail
    (ok200 (Json.obj [("standard", Json.obj
      [("maxFee", Json.num 55), ("maxPriorityFee", Json.num 35)])])) 0
    ⟨"t", none, none, none, none, some (PFloat.fin 55), "Online", 100⟩ rfl

/-- Counterexample to C9 as stated: with standard.maxFee 0 and
standard.maxPriorityFee 35, maxFee is present, yet the code returns 35.0
(Python or skips falsy values), not 0.0 as the first-present-wins rule
would require. -/
theorem ticker_gasB_counterexample :
    tickerField
      (ticker "t" connFail connFail connFail connFail
        (ok200 (Json.obj [("standard", Json.obj
          [("maxFee", Json.num 0), ("maxPriorityFee", Json.num 35)])])) 0)
      Src.polyGas
      = Except.ok (some (PFloat.fin 35)) ∧
    some (PFloat.fin 35) ≠ some (PFloat.fin 0) :=
  ⟨rfl, by decide⟩

/-- C5 (amended): whenever a ticker invocation returns HTTP 200, each
symbol price equals the amended price rule applied to that symbol's
fetched body: the float cast of the field price when the payload is a
mapping whose price field is present and truthy, and null when the field
is missing or falsy (for example the number 0 or an empty string), the
payload is not a mapping, or the cast fails. -/
theorem ticker_price_adapter (now : String) (rU rB rE rG rP : HttpOutcome)
    (u : ℚ) (r : TickerResult)
    (h : ticker now rU rB rE rG rP u = Except.ok r) :
    r.prices_USDTBRL = price_rule (safe_get (URL_PRICE "USDTBRL") rU) ∧
    r.prices_BTCBRL = price_rule (safe_get (URL_PRICE "BTCBRL") rB) ∧
    r.prices_ETHBRL = price_rule (safe_get (URL_PRICE "ETHBRL") rE) := by
  obtain ⟨h1, h2, h3, -, -, -, -, -⟩ := ticker_ok_elim now rU rB rE rG rP u r h
  exact ⟨h1.trans (extract_price_eq_rule _), h2.trans (extract_price_eq_rule _),
    h3.trans (extract_price_eq_rule _)⟩

/-- Witness for C5, realizing the concrete scenario of the claim: the
price provider answers 200 with price "5.41" for USDTBRL and a connection
error for BTCBRL and ETHBRL; the run is a 200 whose prices are 5.41, null,
null, matching the rule on each fetched body. -/
theorem ticker_price_adapter_witness :
    price_rule (safe_get (URL_PRICE "USDTBRL")
        (ok200 (Json.obj [("price", Json.str "5.41")]))) = some (PFloat.fin (541 / 100)) ∧
    ((⟨"t", some (PFloat.fin (541 / 100)), none, none, none, none, "Online", 100⟩ :
        TickerResult).prices_USDTBRL
      = price_rule (safe_get (URL_PRICE "USDTBRL")
          (ok200 (Json.obj [("price", Json.str "5.41")]))) ∧
     (⟨"t", some (PFloat.fin (541 / 100)), none, none, none, none, "Online", 100⟩ :
        TickerResult).prices_BTCBRL
      = price_rule (safe_get (URL_PRICE "BTCBRL") connFail) ∧
     (⟨"t", some (PFloat.fin (541 / 100)), none, none, none, none, "Online", 100⟩ :
        TickerResult).prices_ETHBRL
      = price_rule (safe_get (URL_PRICE "ETHBRL") connFail)) :=
  ⟨by decide,
   ticker_price_adapter "t" (ok200 (Json.obj [("price", Json.str "5.41")]))
     connFail connFail connFail connFail 0
     ⟨"t", some (PFloat.fin (541 / 100)), none, none, none, none, "Online", 100⟩ rfl⟩

/-- Counterexample to C5 as stated: with the price provider answering 200
and the body containing price 0 — a present, numeric field — the code
yields null for that symbol, not 0.0, because Python truthiness treats 0
as missing. -/
theorem ticker_price_counterexample :
    tickerField
      (ticker "t" (ok200 (Json.obj [("price", Json.num 0)]))
        connFail connFail connFail connFail 0) Src.usdt
      = Except.ok none ∧
    (none : Option PFloat) ≠ some (PFloat.fin 0) :=
  ⟨rfl, by decide⟩

/-- C2 (code bug exhibited): the response-shape claim fails on the code in
two ways.  First, a 200 price response with body price "nan" is truthy and
float-convertible, so the ticker stores NaN in prices.USDTBRL — not a
finite float and not null.  Second, a 200 gas-oracle response whose JSON
body is a list is truthy but has no .get, so the handler raises an
uncaught AttributeError and no 200 response with the declared keys is
produced at all. -/
theorem ticker_shape_bug :
    tickerField
      (ticker "t" (ok200 (Json.obj [("price", Json.str "nan")]))
        connFail connFail connFail connFail 0) Src.usdt
      = Except.ok (some PFloat.nan) ∧
    httpOk
      (ticker "t" connFail connFail connFail
        (ok200 (Json.arr [Json.num 1])) connFail 0) = false :=
  ⟨rfl, rfl⟩

/-- C1 (amended): partial-failure isolation holds for runs that share the
synthetic-latency draw and whose gas-oracle bodies are shapes the handler
absorbs: for every pair of ticker invocations with the same unit draw u,
whose sources return identical responses except that one source succeeds
in the first run and fails in the second (connection error, timeout,
non-2xx status, or malformed body), and whose gas-oracle bodies in both
runs are falsy or JSON objects (oracle B's standard member falsy or an
object): both runs return HTTP 200, the field derived from the failed
source is null in the failing run, and every other price and gas field and
the whole status block is identical across the two runs. -/
theorem ticker_partial_isolation (now nowB : String)
    (inp inpB : Src → HttpOutcome) (u : ℚ) (s : Src)
    (heq : ∀ t, t ≠ s → inp t = inpB t)
    (hsucc : fetch_ok (inp s))
    (hfail : fetch_failed (inpB s))
    (hA1 : gasA_shape (safe_get URL_ETH_GAS (inp Src.ethGas)) = true)
    (hB1 : gasB_shape (safe_get URL_POLY_GAS (inp Src.polyGas)) = true)
    (hA2 : gasA_shape (safe_get URL_ETH_GAS (inpB Src.ethGas)) = true)
    (hB2 : gasB_shape (safe_get URL_POLY_GAS (inpB Src.polyGas)) = true) :
    httpOk (tickerI now inp u) = true ∧
    httpOk (tickerI nowB inpB u) = true ∧
    tickerField (tickerI nowB inpB u) s = Except.ok none ∧
    (∀ t, t ≠ s →
      tickerField (tickerI now inp u) t = tickerField (tickerI nowB inpB u) t) ∧
    tickerDesk (tickerI now inp u) = tickerDesk (tickerI nowB inpB u) ∧
    tickerLatency (tickerI now inp u) = tickerLatency (tickerI nowB inpB u) := by
  have h1 := ticker_ok_of now (inp Src.usdt) (inp Src.btc) (inp Src.ethp)
    (inp Src.ethGas) (inp Src.polyGas) u _ _
    (extract_eth_of_shape _ hA1) (extract_poly_of_shape _ hB1)
  have h2 := ticker_ok_of nowB (inpB Src.usdt) (inpB Src.btc) (inpB Src.ethp)
    (inpB Src.ethGas) (inpB Src.polyGas) u _ _
    (extract_eth_of_shape _ hA2) (extract_poly_of_shape _ hB2)
  unfold tickerI
  rw [h1, h2]
  refine ⟨rfl, rfl, ?_, ?_, rfl, rfl⟩
  · cases s with
    | usdt =>
      simp only [tickerField, Except.map, TickerResult.srcField]
      rw [safe_get_of_failed _ _ hfail]
      rfl
    | btc =>
      simp only [tickerField, Except.map, TickerResult.srcField]
      rw [safe_get_of_failed _ _ hfail]
      rfl
    | ethp =>
      simp only [tickerField, Except.map, TickerResult.srcField]
      rw [safe_get_of_failed _ _ hfail]
      rfl
    | ethGas =>
      simp only [tickerField, Except.map, TickerResult.srcField]
      rw [safe_get_of_failed _ _ hfail]
      rfl
    | polyGas =>
      simp only [tickerField, Except.map, TickerResult.srcField]
      rw [safe_get_of_failed _ _ hfail]
      rfl
  · intro t ht
    cases s <;> cases t <;>
      first
      | exact absurd rfl ht
      | (simp only [tickerField, Except.map, TickerResult.srcField]; rw [heq _ ht])

/-- Witness for C1: the failing run of the demo pair (all sources down,
USDTBRL down while it answered in the first run) yields a 200 whose
USDTBRL field is null. -/
theorem ticker_partial_isolation_witness :
    tickerField (tickerI "b" inpDemoB 0) Src.usdt = Except.ok none :=
  (ticker_partial_isolation "a" "b" inpDemoA inpDemoB 0 Src.usdt
    (fun t ht => by
      cases t with
      | usdt => exact absurd rfl ht
      | btc => rfl
      | ethp => rfl
      | ethGas => rfl
      | polyGas => rfl)
    (by decide) (Or.inl rfl) (by decide) (by decide) (by decide) (by decide)).2.2.1

/-- Counterexample to C1 as stated: two runs whose sources are identical
except that the USDTBRL price call succeeds in the first and is a
connection error in the second; both runs are HTTP 200 and the failed
field is null in the failing run, but the status blocks differ (the
latency is a fresh random draw per invocation: here 100 versus 140), so
not every other field is identical across the two runs as the claim
requires, and the other prices are null rather than populated. -/
theorem ticker_isolation_counterexample :
    httpOk (ticker "a" (ok200 (Json.obj [("price", Json.num 5)]))
      connFail connFail connFail connFail 0) = true ∧
    httpOk (ticker "b" connFail connFail connFail connFail connFail (1 / 2)) = true ∧
    tickerField (ticker "b" connFail connFail connFail connFail connFail (1 / 2))
      Src.usdt = Except.ok none ∧
    tickerLatency (ticker "a" (ok200 (Json.obj [("price", Json.num 5)]))
      connFail connFail connFail connFail 0) = Except.ok 100 ∧
    tickerLatency (ticker "b" connFail connFail connFail connFail connFail (1 / 2))
      = Except.ok 140 ∧
    (100 : ℤ) ≠ 140 :=
  ⟨rfl, rfl, rfl, rfl, rfl, by decide⟩

theorem get_hubs_eq (G : ℕ → ℕ → ℚ) (m : ℕ) :
    get_hubs G m =
      [ { id := "saopaulo", name := "São Paulo", country := "Brasil",
          pairs := ["USDT ⇄ BRL"],
          volume24h := (hubMetricAt (G (m + 1)) 0 185).volume24h,
          latencyMs := (hubMetricAt (G (m + 1)) 0 185).latencyMs,
          status := (hubMetricAt (G (m + 1)) 0 185).status },
        { id := "newyork", name := "New York", country := "EUA",
          pairs := ["USDT ⇄ USD"],
          volume24h := (hubMetricAt (G (m + 1)) 1 129).volume24h,
          latencyMs := (hubMetricAt (G (m + 1)) 1 129).latencyMs,
          status := (hubMetricAt (G (m + 1)) 1 129).status },
        { id := "lisbon", name := "Lisboa", country := "Portugal",
          pairs := ["USDT ⇄ EUR"],
          volume24h := (hubMetricAt (G (m + 1)) 2 63).volume24h,
          latencyMs := (hubMetricAt (G (m + 1)) 2 63).latencyMs,
          status := (hubMetricAt (G (m + 1)) 2 63).status },
        { id := "dubai", name := "Dubai", country := "EAU",
          pairs := ["USDT ⇄ AED"],
          volume24h := (hubMetricAt (G (m + 1)) 3 98).volume24h,
          latencyMs := (hubMetricAt (G (m + 1)) 3 98).latencyMs,
          status := (hubMetricAt (G (m + 1)) 3 98).status },
        { id := "singapore", name := "Singapura", country := "Singapura",
          pairs := ["USDT ⇄ SGD"],
          volume24h := (hubMetricAt (G (m + 1)) 4 74).volume24h,
          latencyMs := (hubMetricAt (G (m + 1)) 4 74).latencyMs,
          status := (hubMetricAt (G (m + 1)) 4 74).status } ] := rfl

/-- C6 (amended): every hubs invocation (for any seeded generator whose
draws are unit draws in [0, 1)) returns exactly 5 hubs, each with
volume24h ≥ 0, latencyMs > 0, and status either Online or the Portuguese
maintenance string Manutenção (the code never emits the English string
Maintenance). -/
theorem get_hubs_postcondition (G : ℕ → ℕ → ℚ) (m : ℕ)
    (hG : ∀ s k, 0 ≤ G s k ∧ G s k < 1) :
    (get_hubs G m).length = 5 ∧
    ∀ x ∈ get_hubs G m, 0 ≤ x.volume24h ∧ 0 < x.latencyMs ∧
      (x.status = "Online" ∨ x.status = STATUS_MAINT) := by
  have hvol : ∀ i b : ℕ, 0 ≤ (hubMetricAt (G (m + 1)) i b).volume24h := by
    intro i b
    have h0 := (hG (m + 1) (3 * i)).1
    have hb : (0 : ℚ) ≤ (b : ℚ) := Nat.cast_nonneg b
    have hj : (0 : ℚ) ≤ 0.9 + (1.1 - 0.9) * G (m + 1) (3 * i) := by nlinarith
    show 0 ≤ round2 ((b : ℚ) * 100000 * (0.9 + (1.1 - 0.9) * G (m + 1) (3 * i)) * 100)
    exact round2_nonneg _
      (mul_nonneg (mul_nonneg (mul_nonneg hb (by norm_num)) hj) (by norm_num))
  have hlat : ∀ i b : ℕ, 0 < (hubMetricAt (G (m + 1)) i b).latencyMs := by
    intro i b
    have h0 := (hG (m + 1) (3 * i + 1)).1
    have ht : 0 ≤ truncQ (G (m + 1) (3 * i + 1) * 40) :=
      truncQ_nonneg _ (mul_nonneg h0 (by norm_num))
    show 0 < 80 + (i : ℤ) * 20 + truncQ (G (m + 1) (3 * i + 1) * 40)
    have hi : (0 : ℤ) ≤ (i : ℤ) * 20 := by positivity
    omega
  have hst : ∀ i b : ℕ,
      (hubMetricAt (G (m + 1)) i b).status = "Online" ∨
      (hubMetricAt (G (m + 1)) i b).status = STATUS_MAINT := by
    intro i b
    show (if G (m + 1) (3 * i + 2) > 0.05 then "Online" else STATUS_MAINT) = "Online" ∨
      (if G (m + 1) (3 * i + 2) > 0.05 then "Online" else STATUS_MAINT) = STATUS_MAINT
    split
    · exact Or.inl rfl
    · exact Or.inr rfl
  rw [get_hubs_eq]
  refine ⟨rfl, ?_⟩
  intro x hx
  simp only [List.mem_cons, List.not_mem_nil, or_false] at hx
  rcases hx with rfl | rfl | rfl | rfl | rfl
  · exact ⟨hvol 0 185, hlat 0 185, hst 0 185⟩
  · exact ⟨hvol 1 129, hlat 1 129, hst 1 129⟩
  · exact ⟨hvol 2 63, hlat 2 63, hst 2 63⟩
  · exact ⟨hvol 3 98, hlat 3 98, hst 3 98⟩
  · exact ⟨hvol 4 74, hlat 4 74, hst 4 74⟩

/-- Witness for C6 with the all-zero unit-draw generator at minute 7. -/
theorem get_hubs_postcondition_witness :
    (get_hubs G0 7).length = 5 :=
  (get_hubs_postcondition G0 7
    (fun s k => ⟨le_refl 0, (by norm_num : (0 : ℚ) < 1)⟩)).1

/-- Counterexample to C6 as stated: a draw sequence whose status draws are
all 0 (each ≤ 0.05) makes every hub report the Portuguese string
Manutenção, which differs from both Maintenance and Online, so the claimed
status set \x7bOnline, Maintenance\x7d is wrong for the code. -/
theorem get_hubs_status_counterexample :
    (get_hubs G0 0).map HubItem.status
      = [STATUS_MAINT, STATUS_MAINT, STATUS_MAINT, STATUS_MAINT, STATUS_MAINT] ∧
    STATUS_MAINT ≠ "Maintenance" ∧ STATUS_MAINT ≠ "Online" :=
  ⟨rfl, by decide, by decide⟩

/-- C7: same-minute stability: two hubs invocations that happen in the
same wall-clock minute (equal year, month, day, hour and minute; the
seconds may differ) produce identical metrics for every hub, because the
generator is reseeded from the wall-clock minute plus the fixed offset
before each generation. -/
theorem hubs_same_minute_stable (G : ℕ → ℕ → ℚ) (t1 t2 : PyDateTime)
    (hy : t1.year = t2.year) (hmo : t1.month = t2.month) (hd : t1.day = t2.day)
    (hh : t1.hour = t2.hour) (hmin : t1.minute = t2.minute) :
    get_hubs_at G t1 = get_hubs_at G t2 := by
  unfold get_hubs_at
  rw [hmin]

/-- Witness for C7: two instants in the same minute, 54 seconds apart. -/
theorem hubs_same_minute_stable_witness :
    get_hubs_at G0 ⟨2026, 10, 12, 9, 30, 5⟩ = get_hubs_at G0 ⟨2026, 10, 12, 9, 30, 59⟩ :=
  hubs_same_minute_stable G0 ⟨2026, 10, 12, 9, 30, 5⟩ ⟨2026, 10, 12, 9, 30, 59⟩
    rfl rfl rfl rfl rfl

/-- C10: the hub simulation is seeded from minute-of-hour plus 1 only:
any two invocations whose clock instants agree on the minute-of-hour —
whatever their year, month, day, hour or second — produce identical
metrics for every hub, and the seeded stream consumed at an instant is
the one belonging to minute + 1. -/
theorem hubs_minute_of_hour_only (G : ℕ → ℕ → ℚ) (t1 t2 : PyDateTime)
    (hmin : t1.minute = t2.minute) :
    get_hubs_at G t1 = get_hubs_at G t2 ∧
    simulate_hub_metrics G t1.minute 1 = simulate_hub_metrics G t2.minute 1 := by
  unfold get_hubs_at
  rw [hmin]
  exact ⟨rfl, rfl⟩

/-- Witness for C10: two instants on different days, in different hours,
sharing only the minute-of-hour 30. -/
theorem hubs_minute_of_hour_only_witness :
    get_hubs_at G0 ⟨2026, 1, 1, 0, 30, 0⟩ = get_hubs_at G0 ⟨2027, 3, 9, 23, 30, 59⟩ ∧
    simulate_hub_metrics G0 30 1 = simulate_hub_metrics G0 30 1 :=
  hubs_minute_of_hour_only G0 ⟨2026, 1, 1, 0, 30, 0⟩ ⟨2027, 3, 9, 23, 30, 59⟩ rfl

end TCR
